import Mathlib

/-!
Verification development for the steam-recommender recommendation core.

The Python source is shallowly embedded as Lean definitions:

* a pandas DataFrame of games becomes a `List Game` (boolean-mask filtering
  preserves row order, exactly as `df[mask]` does);
* external artifacts that the core merely consumes (the NCF model and its
  encoders, sklearn's `cosine_similarity`, the Chroma vector store,
  rapidfuzz/fuzzywuzzy scorers) are modelled as oracle functions collected in
  the `Oracles` structure; a call that may raise is modelled as an
  `Option`-returning oracle, `none` standing for the raised exception;
* `Series.str.contains(tag, case=False, na=False)` over the tags/themes
  columns is modelled as a case-insensitive substring test against each entry
  of the per-row string list, and a missing value never matches; over the
  genres column — which holds Python lists after `normalize_genres` — that
  same call is `False` on every row, so the handler's genres-exclusion mask
  is modelled as the no-op it is in the program (see `applyExcludedTag`);
* float similarity scores and the `positive_ratio` column are modelled as `ℚ`.
-/

/-- Model of Python `str.lower()` (ASCII case folding), written over the
character list so that it evaluates in the kernel. -/
def lowerStr (s : String) : String := String.mk (s.data.map Char.toLower)

/-- Model of Python `str.strip()`, written over the character list so that it
evaluates in the kernel. -/
def trimStr (s : String) : String :=
  String.mk (((s.data.dropWhile Char.isWhitespace).reverse.dropWhile
    Char.isWhitespace).reverse)

/-- Case-insensitive substring test on lists of characters:
`needle` occurs contiguously in `hay`. -/
def charsIn (needle : List Char) : List Char → Bool
  | [] => needle.isEmpty
  | c :: rest => needle.isPrefixOf (c :: rest) || charsIn needle rest

/-- Model of `hay_string.contains(needle, case=False)`: case-insensitive
substring containment. -/
def strContainsCI (hay needle : String) : Bool :=
  charsIn (lowerStr needle).data (lowerStr hay).data

/-- Model of Python `str.isdigit()`: nonempty and all characters digits. -/
def isDigitString (s : String) : Bool :=
  !s.isEmpty && s.toList.all Char.isDigit

/-- Model of the Python slice `xs[-n:]`: for `n = 0` the slice is the whole
list (`xs[-0:] = xs[0:]`), otherwise the last `n` elements. -/
def lastSlice (n : Nat) (xs : List α) : List α :=
  if n = 0 then xs else xs.drop (xs.length - n)

/-- Collect a list of `Option`s into an optional list; `none` anywhere models
a raised exception in a vectorized call. -/
def allSome : List (Option α) → Option (List α)
  | [] => some []
  | none :: _ => none
  | some a :: rest => (allSome rest).map (a :: ·)

theorem not_mem_of_contains_false [BEq α] [LawfulBEq α] {l : List α} {a : α}
    (h : l.contains a = false) : a ∉ l := by
  intro hm
  have h2 : l.contains a = true := List.elem_iff.mpr hm
  rw [h] at h2
  exact Bool.false_ne_true h2

theorem mem_of_contains_true [BEq α] [LawfulBEq α] {l : List α} {a : α}
    (h : l.contains a = true) : a ∈ l :=
  List.elem_iff.mp h

theorem not_mem_of_bnot_contains [BEq α] [LawfulBEq α] {l : List α} {a : α}
    (h : (!l.contains a) = true) : a ∉ l :=
  not_mem_of_contains_false (by simpa using h)

/-- One catalog row of `games_complete_df` / `combined_df`. `date_release`
holds the parsed release year (`none` = missing or unparseable, i.e. `NaT`);
`posPercent` models the nullable `positive_ratio` column. -/
structure Game where
  app_id : Nat
  title : String
  tags : List String
  genres : List String
  themes : List String
  date_release : Option Int
  posPercent : Option ℚ
deriving DecidableEq, Repr

/-- The parsed `release_year_filter` preference:
`{comparator: after|before|exact, year: int}`. -/
structure YearFilter where
  comparator : String
  year : Int
deriving DecidableEq, Repr

/-- External artifacts consumed by the core, modelled as oracles.
`none` results model raised exceptions / absent data:

* `userEnc` — `user_encoder.transform` composed with the NCF
  `user_embedding` layer (the body of `get_user_embedding`'s `try`);
* `cosineScores` — retrieval of the `item_embedding` weights followed by
  sklearn `cosine_similarity(user_embedding, item_embeddings).flatten()`;
* `gameEncoderInv` — `game_encoder.inverse_transform` on one model index;
* `vs` — `vector_store.similarity_search(query, k)` already projected to the
  returned `app_id` metadata list;
* `fuzz` — `rapidfuzz.fuzz.partial_ratio`;
* `extractOne` — `fuzzywuzzy.process.extractOne(..., scorer=token_sort_ratio)`. -/
structure Oracles where
  userEnc : Int → Option (List ℚ)
  cosineScores : List ℚ → Option (List ℚ)
  gameEncoderInv : Nat → Option Nat
  vs : String → Nat → Option (List Nat)
  fuzz : String → String → Nat
  extractOne : String → List String → Option (String × Nat)

/- ## utils/game_info_utils.py -/

/-- The genre synonym table of `normalize_genre`. -/
def genreSynonyms : List (String × String) :=
  [("rpg", "role-playing"), ("role playing", "role-playing"),
   ("roleplaying", "role-playing"), ("fps", "shooter"),
   ("first person shooter", "shooter"), ("action adventure", "action"),
   ("adventure", "adventure"), ("sports", "sports"), ("sim", "simulation"),
   ("simulator", "simulation"), ("strategy", "strategy"), ("indie", "indie"),
   ("puzzle", "puzzle"), ("platformer", "platformer"), ("horror", "horror"),
   ("racing", "racing"), ("casual", "casual"), ("multiplayer", "multiplayer"),
   ("co-op", "co-op"), ("coop", "co-op"), ("sandbox", "sandbox"),
   ("survival", "survival"), ("open world", "open world"),
   ("family", "family"), ("family friendly", "family"),
   ("story rich", "story rich"), ("roguelike", "roguelike"),
   ("roguelite", "roguelike"), ("turn based", "turn-based"),
   ("turn-based", "turn-based"), ("card", "card"), ("deckbuilder", "card"),
   ("deck builder", "card"), ("visual novel", "visual novel"),
   ("anime", "anime"), ("fighting", "fighting"), ("shooter", "shooter"),
   ("third person shooter", "shooter"), ("platform", "platformer"),
   ("building", "building"), ("city builder", "building"),
   ("management", "management"), ("music", "music"), ("rhythm", "music"),
   ("stealth", "stealth"), ("tactical", "tactical"),
   ("tower defense", "tower defense"), ("vr", "vr"),
   ("virtual reality", "vr"), ("zombie", "zombie"),
   ("historical", "historical"), ("sci-fi", "sci-fi"),
   ("science fiction", "sci-fi"), ("space", "space"), ("western", "western"),
   ("mmo", "mmo"), ("massively multiplayer", "mmo"),
   ("free to play", "free to play"), ("f2p", "free to play")]

/-- `normalize_genre` from `utils/game_info_utils.py`: strip, lowercase and
map through the synonym table. -/
def normalize_genre (g : String) : String :=
  let k := lowerStr (trimStr g)
  match genreSynonyms.find? (fun p => p.1 == k) with
  | some p => p.2
  | none => k

/-- `get_game_info_by_title` from `utils/game_info_utils.py`: fuzzy lookup of
a title against the lowercased catalog titles; a match needs score > 80 and
resolves to the first row carrying the matched lowercased title. -/
def get_game_info_by_title (o : Oracles) (gameTitle : String)
    (games : List Game) : Option Game :=
  if games.isEmpty then none
  else
    match o.extractOne (lowerStr gameTitle) (games.map (fun g => lowerStr g.title)) with
    | none => none
    | some (m, score) =>
        if 80 < score then games.find? (fun g => lowerStr g.title == m) else none

/-- `filter_games_by_genre` from `utils/game_info_utils.py`: keep rows whose
normalized genre list contains the normalized target genre. -/
def filter_games_by_genre (games : List Game) (userGenre : String) : List Game :=
  games.filter (fun g => (g.genres.map normalize_genre).contains (normalize_genre userGenre))

/- ## recommenders/content_based.py -/

/-- Query text of `get_advanced_similar_games`: a list query is joined with
spaces, a string query is used as-is. -/
def queryText : Sum String (List String) → String
  | Sum.inl s => s
  | Sum.inr l => String.intercalate " " l

/-- The `input_titles_lower` set: populated only when the query is a list
(`isinstance(user_query, list)` in the source). -/
def inputTitlesLower : Sum String (List String) → List String
  | Sum.inl _ => []
  | Sum.inr l => l.map (fun t => lowerStr t)

/-- The fixed exclusion keyword set of step 3. -/
def excludeKeywords : List String := ["DLC", "Bonus Content", "Expansion", "Mod"]

/-- Step 3 predicate: the title matches the regex alternation of the
exclusion keywords, case-insensitively. -/
def hasExcludeKeyword (t : String) : Bool :=
  excludeKeywords.any (fun kw => strContainsCI t kw)

/-- Step 5 of `get_advanced_similar_games`: release-year filtering. Rows with
a missing (`NaT`) year never satisfy a comparison and are dropped; an
unrecognized comparator leaves the frame unchanged. -/
def applyYearFilter (ryf : Option YearFilter) (l : List Game) : List Game :=
  match ryf with
  | none => l
  | some f =>
      if f.comparator = "after" then
        l.filter (fun g => match g.date_release with
          | some y => decide (f.year < y)
          | none => false)
      else if f.comparator = "before" then
        l.filter (fun g => match g.date_release with
          | some y => decide (y < f.year)
          | none => false)
      else if f.comparator = "exact" then
        l.filter (fun g => match g.date_release with
          | some y => decide (y = f.year)
          | none => false)
      else l

/-- Step 7 of `get_advanced_similar_games`: walk the rows, keep a row only if
its title's partial-ratio similarity to every previously kept title is below
the threshold, and break as soon as the kept count reaches `k` (the break is
checked after every row, kept or not, exactly as in the Python loop). The
returned list is the kept rows in walk order; `seen` carries the titles kept
so far. -/
def fuzzyWalk (pr : String → String → Nat) (thr k : Nat) :
    List Game → List String → List Game
  | [], _ => []
  | g :: rest, seen =>
      if seen.all (fun s => decide (pr g.title s < thr)) then
        if k ≤ seen.length + 1 then [g]
        else g :: fuzzyWalk pr thr k rest (g.title :: seen)
      else
        if k ≤ seen.length then []
        else fuzzyWalk pr thr k rest seen

/-- Step 2 of `get_advanced_similar_games`: intersect the catalog with the
ids returned by the index; catalog row order is preserved, as boolean-mask
selection does. -/
def stepIds (appIds : List Nat) (combined : List Game) : List Game :=
  combined.filter (fun g => appIds.contains g.app_id)

/-- Step 3 of `get_advanced_similar_games`: drop DLC-like titles. -/
def stepKw (l : List Game) : List Game :=
  l.filter (fun g => !hasExcludeKeyword g.title)

/-- Step 4 of `get_advanced_similar_games`: when genres were requested, keep
rows where some lowered requested genre equals some lowered tag. -/
def stepGenres (genres : List String) (l : List Game) : List Game :=
  if genres.isEmpty then l
  else l.filter (fun g =>
    genres.any (fun gen => (g.tags.map (fun t => lowerStr t)).contains (lowerStr gen)))

/-- Step 6 of `get_advanced_similar_games`: drop rows whose lowered title is
among the input titles; skipped when that set is empty — in particular for
every plain-string query. -/
def stepInputTitles (titles : List String) (l : List Game) : List Game :=
  if titles.isEmpty then l
  else l.filter (fun g => !titles.contains (lowerStr g.title))

/-- Steps 2–6 of `get_advanced_similar_games` composed. -/
def retrieverSurvivors (userQuery : Sum String (List String))
    (combined : List Game) (genres : List String) (ryf : Option YearFilter)
    (appIds : List Nat) : List Game :=
  stepInputTitles (inputTitlesLower userQuery)
    (applyYearFilter ryf (stepGenres genres (stepKw (stepIds appIds combined))))

/-- `get_advanced_similar_games` from `recommenders/content_based.py`.
A `none` from the vector store models the index raising, caught by the
function-wide `try/except` that returns an empty frame; an empty neighbor
list returns the empty frame directly. -/
def get_advanced_similar_games (o : Oracles) (userQuery : Sum String (List String))
    (combined : List Game) (genres : List String) (ryf : Option YearFilter)
    (k : Nat) (thr : Nat) (mult : Nat) : List Game :=
  match o.vs (queryText userQuery) (k * mult) with
  | none => []
  | some appIds =>
      if appIds.isEmpty then []
      else (fuzzyWalk o.fuzz thr k (retrieverSurvivors userQuery combined genres ryf appIds) []).take k

/-- Modelled from the spec: the variant of the retriever whose step-7 walk
visits the surviving entries in retrieval-rank order (the order in which the
embedding index returned their ids) instead of catalog row order. Used only
to compare the source behavior against the spec's step 7. -/
def rankOrdered (appIds : List Nat) (l : List Game) : List Game :=
  appIds.filterMap (fun i => l.find? (fun g => g.app_id == i))

/-- Modelled from the spec: `get_advanced_similar_games` as the spec's step 7
describes it, walking survivors in retrieval-rank order. -/
def retrieverSpecRankWalk (o : Oracles) (userQuery : Sum String (List String))
    (combined : List Game) (genres : List String) (ryf : Option YearFilter)
    (k : Nat) (thr : Nat) (mult : Nat) : List Game :=
  match o.vs (queryText userQuery) (k * mult) with
  | none => []
  | some appIds =>
      if appIds.isEmpty then []
      else (fuzzyWalk o.fuzz thr k
        (rankOrdered appIds (retrieverSurvivors userQuery combined genres ryf appIds)) []).take k

/-- The id pass of `filter_disliked_games` from
`recommenders/content_based.py`: when some disliked entry is an all-digit
string, drop rows whose `app_id` printed as a string is among those
entries. -/
def dislikedIdPass (disliked : List String) (byTitle : List Game) : List Game :=
  if (disliked.filter isDigitString).isEmpty then byTitle
  else byTitle.filter (fun g => !(disliked.filter isDigitString).contains (toString g.app_id))

/-- The title pass of `filter_disliked_games`. -/
def dislikedTitlePass (disliked : List String) (games : List Game) : List Game :=
  games.filter (fun g => !(disliked.map (fun d => lowerStr d)).contains (lowerStr g.title))

/-- `filter_disliked_games` composed from its two passes; the source's
`games_df is None or games_df.empty` early return is the `games.isEmpty`
branch. -/
def filter_disliked_games (games : List Game) (disliked : List String) : List Game :=
  if disliked.isEmpty then games
  else if games.isEmpty then games
  else dislikedIdPass disliked (dislikedTitlePass disliked games)

/- ## recommenders/collaborative.py -/

/-- `get_user_embedding`: the encoder transform and embedding-layer call sit
in a `try` that returns `None` on any exception; the oracle's `none` models
that exception. -/
def get_user_embedding (o : Oracles) (userId : Int) : Option (List ℚ) :=
  o.userEnc userId

/-- The index selection `similarity_scores.argsort()[-top_n:][::-1]` of
`collaborative_filtering`: a full ascending argsort over every item score,
then the Python `[-top_n:]` slice (the whole list when `top_n = 0`),
reversed. -/
def topIndices (scores : List ℚ) (topN : Nat) : List Nat :=
  (lastSlice topN
    (List.insertionSort (fun i j => scores.getD i 0 ≤ scores.getD j 0)
      (List.range scores.length))).reverse

/-- `collaborative_filtering` from `recommenders/collaborative.py`: compute
similarity scores for every item vector, select the indices of the `top_n`
highest scores, map them through `game_encoder.inverse_transform`, and keep
the candidate rows whose `app_id` is among the resulting ids — in candidate
(catalog) row order, as `filtered_games[... .isin(...)]` does. A `none` from
either oracle models an exception, caught by the `try/except` that returns an
empty frame. -/
def collaborative_filtering (o : Oracles) (userEmbedding : List ℚ)
    (filteredGames : List Game) (topN : Nat) : List Game :=
  match o.cosineScores userEmbedding with
  | none => []
  | some scores =>
      match allSome ((topIndices scores topN).map o.gameEncoderInv) with
      | none => []
      | some appIds => filteredGames.filter (fun g => appIds.contains g.app_id)

/-- `collaborative_filtering_with_fallback` from
`recommenders/collaborative.py`. `userId = some 0` is falsy in Python
(`if user_id:`), hence treated like `none`. When the collaborative result is
empty or shorter than `top_n` it is overwritten by one
`get_advanced_similar_games` call whose query is the liked titles joined with
spaces (a plain string, so the input-title exclusion of step 6 is skipped)
and whose genre/year preferences come from the session's stored preferences.
The final frame is `head(top_n)`. -/
def collaborative_filtering_with_fallback (o : Oracles) (userId : Option Int)
    (filteredGames : List Game) (likedGames : List String)
    (sessGenres : List String) (sessRyf : Option YearFilter)
    (topN : Nat) : List Game :=
  let userEmbedding : Option (List ℚ) :=
    match userId with
    | some u => if u ≠ 0 then get_user_embedding o u else none
    | none => none
  let recs : List Game :=
    match userEmbedding with
    | some emb => collaborative_filtering o emb filteredGames topN
    | none => []
  let recs' :=
    if recs.isEmpty || recs.length < topN then
      get_advanced_similar_games o (Sum.inl (String.intercalate " " likedGames))
        filteredGames sessGenres sessRyf topN 95 5
    else recs
  recs'.take topN

/- ## sessions/session_manager.py -/

/-- The mutable per-user session state of `UserSession`, restricted to the
three set-valued fields the mutator claims are about. Python `set`s become
`Finset String`. -/
structure UserSession where
  liked_games : Finset String
  disliked_games : Finset String
  excluded_tags : Finset String
deriving DecidableEq

/-- `UserSession.update_likes` on a list/set argument: `set.update`. -/
def UserSession.update_likes (s : UserSession) (games : Finset String) : UserSession :=
  { s with liked_games := s.liked_games ∪ games }

/-- `UserSession.update_dislikes` on a list/set argument: `set.update`. -/
def UserSession.update_dislikes (s : UserSession) (games : Finset String) : UserSession :=
  { s with disliked_games := s.disliked_games ∪ games }

/-- `UserSession.set_excluded_tags` on a list/set argument: despite the name,
the source calls `set.update`, accumulating into the existing set. -/
def UserSession.set_excluded_tags (s : UserSession) (tags : Finset String) : UserSession :=
  { s with excluded_tags := s.excluded_tags ∪ tags }

/- ## handlers/recommendation_handlers.py -/

/-- One tag's hit test against one string-list column, as
`Series.str.contains(tag, case=False, na=False)` behaves on a present value. -/
def colHit (col : List String) (tag : String) : Bool :=
  col.any (fun t => strContainsCI t tag)

/-- One pass of the excluded-tags loop in `handle_recommend_games`. The
source applies three successive negated `str.contains` masks, over tags,
genres and themes, but only two of them do anything:

* the `tags` mask is an active case-insensitive substring filter (the
  column keeps its CSV string form; on the row model, a hit in any tag);
* the `genres` mask is a NO-OP in the program: `games_complete_df` gets its
  `genres` column from `normalize_genres` (`data/preprocess.py`), which
  always yields a Python list, and `Series.str.contains(tag, case=False,
  na=False)` evaluates to `False` on every non-string value, so the negated
  mask keeps every row — it is therefore omitted from the model;
* the `themes` mask runs only when the column exists; a row without themes
  is modelled by an empty list, which never matches. -/
def applyExcludedTag (df : List Game) (tag : String) : List Game :=
  (df.filter (fun g => !colHit g.tags tag)).filter
    (fun g => !colHit g.themes tag)

/-- The candidate narrowing performed by `handle_recommend_games` before the
tiers run: disliked-games filter, then one `applyExcludedTag` pass per
excluded tag, then (only when the request names genres) one
`filter_games_by_genre` pass per normalized genre. -/
def pipelineFiltered (catalog : List Game) (disliked excludedTags genresN : List String) :
    List Game :=
  let f1 := filter_disliked_games catalog disliked
  let f2 := excludedTags.foldl applyExcludedTag f1
  if genresN.isEmpty then f2 else genresN.foldl filter_games_by_genre f2

/-- The Tier-2 accumulation of `handle_recommend_games`: one
`get_advanced_similar_games` call per liked title (the title passed as a
plain string), `k=3`, request-local genres and year filter, results
concatenated in liked-title order. -/
def tier2Accumulate (o : Oracles) (filteredGames : List Game)
    (genresN : List String) (localRyf : Option YearFilter)
    (liked : List String) : List Game :=
  liked.flatMap (fun t =>
    get_advanced_similar_games o (Sum.inl t) filteredGames genresN localRyf 3 95 5)

/-- `drop_duplicates(subset=['app_id'])`: keep the first row per id. -/
def dedupByAppId : List Game → List Game :=
  go []
where
  /-- Walk with the set of already-seen ids. -/
  go (seen : List Nat) : List Game → List Game
    | [] => []
    | g :: rest =>
        if seen.contains g.app_id then go seen rest
        else g :: go (g.app_id :: seen) rest

/-- Sort key for Tier 3's `sort_values(by='positive_ratio', ascending=False)`:
rows lacking the value sort last, modelled by mapping them to `⊥`. -/
def posKey (g : Game) : WithBot ℚ :=
  match g.posPercent with
  | some x => (x : WithBot ℚ)
  | none => ⊥

/-- Tier 3's descending sort by `positive_ratio` with missing values last. -/
def sortByPosDesc (l : List Game) : List Game :=
  List.insertionSort (fun a b => posKey b ≤ posKey a) l

/-- Tier 3 of `handle_recommend_games`: resolve each liked title in the FULL
catalog via fuzzy lookup, collect their ids and normalized genres, and — when
any genre was found — rank the full catalog rows sharing a genre (raw
membership of a candidate genre in the normalized set) and not among the
input ids, by `positive_ratio` descending, truncated. The source writes the
truncation literally as `head(5)`; `topN` abstracts that literal. -/
def tier3Recs (o : Oracles) (catalog : List Game) (liked : List String)
    (topN : Nat) : List Game :=
  let found := liked.filterMap (fun t => get_game_info_by_title o t catalog)
  let inputIds := found.map (fun g => g.app_id)
  let genres3 := found.flatMap (fun gi => gi.genres.map normalize_genre)
  if genres3.isEmpty then []
  else
    (sortByPosDesc (catalog.filter (fun g =>
      g.genres.any (fun x => genres3.contains x) && !inputIds.contains g.app_id))).take topN

/-- Result of one run of the recommendation pipeline, instrumented with which
tiers ran, for the temporal claims. -/
structure PipeResult where
  tier1 : List Game
  tier2Invoked : Bool
  tier2Acc : List Game
  tier3Invoked : Bool
  recs : List Game
deriving DecidableEq, Repr

/-- The `session.user_id or None` expression at the handler's Tier-1 call
site, composed with Python truthiness (`0` is falsy). -/
def uidTruthy : Option Int → Option Int
  | some u => if u ≠ 0 then some u else none
  | none => none

/-- The handler's Tier-1 stage: `collaborative_filtering_with_fallback` over
the narrowed candidate pool. -/
def pipeTier1 (o : Oracles) (catalog : List Game)
    (liked disliked excludedTags rawGenres sessGenres : List String)
    (sessRyf : Option YearFilter) (userId : Option Int) (topN : Nat) : List Game :=
  collaborative_filtering_with_fallback o (uidTruthy userId)
    (pipelineFiltered catalog disliked excludedTags (rawGenres.map normalize_genre))
    liked sessGenres sessRyf topN

/-- The guard of the handler's Tier-2 block:
`if recommendations.empty and liked_games:`. -/
def pipeTier2Cond (o : Oracles) (catalog : List Game)
    (liked disliked excludedTags rawGenres sessGenres : List String)
    (sessRyf : Option YearFilter) (userId : Option Int) (topN : Nat) : Bool :=
  (pipeTier1 o catalog liked disliked excludedTags rawGenres sessGenres sessRyf
    userId topN).isEmpty && !liked.isEmpty

/-- The accumulated Tier-2 results (empty when Tier 2 was not entered). -/
def pipeAcc (o : Oracles) (catalog : List Game)
    (liked disliked excludedTags rawGenres sessGenres : List String)
    (sessRyf localRyf : Option YearFilter) (userId : Option Int) (topN : Nat) : List Game :=
  if pipeTier2Cond o catalog liked disliked excludedTags rawGenres sessGenres sessRyf
      userId topN then
    tier2Accumulate o
      (pipelineFiltered catalog disliked excludedTags (rawGenres.map normalize_genre))
      (rawGenres.map normalize_genre) localRyf liked
  else []

/-- The recommendations standing after the handler's Tier-2 block. -/
def pipeAfterT2 (o : Oracles) (catalog : List Game)
    (liked disliked excludedTags rawGenres sessGenres : List String)
    (sessRyf localRyf : Option YearFilter) (userId : Option Int) (topN : Nat) : List Game :=
  if pipeTier2Cond o catalog liked disliked excludedTags rawGenres sessGenres sessRyf
      userId topN then
    (if (pipeAcc o catalog liked disliked excludedTags rawGenres sessGenres sessRyf
        localRyf userId topN).isEmpty then
      pipeTier1 o catalog liked disliked excludedTags rawGenres sessGenres sessRyf userId topN
    else
      (dedupByAppId (pipeAcc o catalog liked disliked excludedTags rawGenres sessGenres
        sessRyf localRyf userId topN)).take topN)
  else pipeTier1 o catalog liked disliked excludedTags rawGenres sessGenres sessRyf userId topN

/-- The guard of the handler's Tier-3 block. -/
def pipeTier3Cond (o : Oracles) (catalog : List Game)
    (liked disliked excludedTags rawGenres sessGenres : List String)
    (sessRyf localRyf : Option YearFilter) (userId : Option Int) (topN : Nat) : Bool :=
  (pipeAfterT2 o catalog liked disliked excludedTags rawGenres sessGenres sessRyf
    localRyf userId topN).isEmpty && !liked.isEmpty

/-- The recommendation pipeline of `handle_recommend_games`, from the point
where the liked/disliked/excluded preference values are fixed (the upstream
translation, title extraction and LLM calls are outside the core). `liked`
is the verified liked-titles list (nonempty in the handler, which returns
early otherwise); `excludedTags` is the session's accumulated excluded-tag
set as returned by `session.get_excluded_tags()`; `rawGenres` is the
request's genre list before the handler normalizes it; `sessGenres`/`sessRyf`
are the SESSION's stored preferences (read by the Tier-1 fallback), while
`localRyf` is the request's year filter (read by Tier 2) — the handler never
copies the request preferences into the session, so the two can differ. The
source hard-codes `top_n = 5`; `topN` abstracts that literal. -/
def handle_recommend_games (o : Oracles) (catalog : List Game)
    (liked disliked excludedTags rawGenres : List String)
    (sessGenres : List String) (sessRyf localRyf : Option YearFilter)
    (userId : Option Int) (topN : Nat) : PipeResult :=
  ⟨pipeTier1 o catalog liked disliked excludedTags rawGenres sessGenres sessRyf userId topN,
   pipeTier2Cond o catalog liked disliked excludedTags rawGenres sessGenres sessRyf
     userId topN,
   pipeAcc o catalog liked disliked excludedTags rawGenres sessGenres sessRyf localRyf
     userId topN,
   pipeTier3Cond o catalog liked disliked excludedTags rawGenres sessGenres sessRyf
     localRyf userId topN,
   if pipeTier3Cond o catalog liked disliked excludedTags rawGenres sessGenres sessRyf
       localRyf userId topN then
     tier3Recs o catalog liked topN
   else
     pipeAfterT2 o catalog liked disliked excludedTags rawGenres sessGenres sessRyf
       localRyf userId topN⟩

/- ## Structural lemmas -/

theorem applyYearFilter_sublist (ryf : Option YearFilter) (l : List Game) :
    (applyYearFilter ryf l).Sublist l := by
  unfold applyYearFilter
  cases ryf with
  | none => exact List.Sublist.refl l
  | some f =>
      repeat' split
      all_goals first
        | exact List.filter_sublist l
        | exact List.Sublist.refl l

theorem stepGenres_sublist (genres : List String) (l : List Game) :
    (stepGenres genres l).Sublist l := by
  unfold stepGenres
  split
  · exact List.Sublist.refl l
  · exact List.filter_sublist l

theorem stepInputTitles_sublist (titles : List String) (l : List Game) :
    (stepInputTitles titles l).Sublist l := by
  unfold stepInputTitles
  split
  · exact List.Sublist.refl l
  · exact List.filter_sublist l

theorem retrieverSurvivors_sublist (uq : Sum String (List String))
    (combined : List Game) (genres : List String) (ryf : Option YearFilter)
    (appIds : List Nat) :
    (retrieverSurvivors uq combined genres ryf appIds).Sublist combined := by
  unfold retrieverSurvivors
  exact ((stepInputTitles_sublist _ _).trans (applyYearFilter_sublist _ _)).trans
    (((stepGenres_sublist _ _).trans (List.filter_sublist _)).trans (List.filter_sublist _))

theorem fuzzyWalk_sublist (pr : String → String → Nat) (thr k : Nat) :
    ∀ (l : List Game) (seen : List String), (fuzzyWalk pr thr k l seen).Sublist l := by
  intro l
  induction l with
  | nil => intro seen; simp [fuzzyWalk]
  | cons g rest ih =>
      intro seen
      unfold fuzzyWalk
      split
      · split
        · exact List.Sublist.cons₂ g (List.nil_sublist rest)
        · exact List.Sublist.cons₂ g (ih (g.title :: seen))
      · split
        · exact List.nil_sublist _
        · exact List.Sublist.cons g (ih seen)

theorem get_advanced_similar_games_sublist (o : Oracles)
    (uq : Sum String (List String)) (combined : List Game)
    (genres : List String) (ryf : Option YearFilter) (k thr mult : Nat) :
    (get_advanced_similar_games o uq combined genres ryf k thr mult).Sublist combined := by
  unfold get_advanced_similar_games
  split
  · exact List.nil_sublist _
  · split
    · exact List.nil_sublist _
    · exact ((List.take_sublist _ _).trans (fuzzyWalk_sublist _ _ _ _ _)).trans
        (retrieverSurvivors_sublist _ _ _ _ _)

theorem fuzzyWalk_chain (pr : String → String → Nat) (thr k : Nat) :
    ∀ (l : List Game) (seen : List String), ∀ g ∈ fuzzyWalk pr thr k l seen,
      ∀ s ∈ seen, pr g.title s < thr := by
  intro l
  induction l with
  | nil => intro seen g hg; simp [fuzzyWalk] at hg
  | cons a rest ih =>
      intro seen g hg s hs
      unfold fuzzyWalk at hg
      by_cases hall : seen.all (fun s => decide (pr a.title s < thr)) = true
      · rw [if_pos hall] at hg
        have hof : ∀ s ∈ seen, pr a.title s < thr := by
          intro x hx
          have := List.all_eq_true.mp hall x hx
          simpa using this
        split at hg
        · simp only [List.mem_singleton] at hg
          subst hg; exact hof s hs
        · rcases List.mem_cons.mp hg with h | h
          · subst h; exact hof s hs
          · exact ih (a.title :: seen) g h s (List.mem_cons_of_mem _ hs)
      · rw [if_neg hall] at hg
        split at hg
        · simp at hg
        · exact ih seen g hg s hs

theorem fuzzyWalk_pairwise (pr : String → String → Nat) (thr k : Nat) :
    ∀ (l : List Game) (seen : List String),
      List.Pairwise (fun a b => pr b.title a.title < thr) (fuzzyWalk pr thr k l seen) := by
  intro l
  induction l with
  | nil => intro seen; simp [fuzzyWalk]
  | cons a rest ih =>
      intro seen
      unfold fuzzyWalk
      split
      · split
        · simp
        · refine List.pairwise_cons.mpr ⟨?_, ih (a.title :: seen)⟩
          intro b hb
          exact fuzzyWalk_chain pr thr k rest (a.title :: seen) b hb a.title
            (List.mem_cons_self _ _)
      · split
        · simp
        · exact ih seen

theorem collaborative_filtering_sublist (o : Oracles) (emb : List ℚ)
    (filteredGames : List Game) (topN : Nat) :
    (collaborative_filtering o emb filteredGames topN).Sublist filteredGames := by
  unfold collaborative_filtering
  split
  · exact List.nil_sublist _
  · split
    · exact List.nil_sublist _
    · exact List.filter_sublist _

theorem collaborative_filtering_with_fallback_sublist (o : Oracles)
    (userId : Option Int) (filteredGames : List Game) (likedGames : List String)
    (sessGenres : List String) (sessRyf : Option YearFilter) (topN : Nat) :
    (collaborative_filtering_with_fallback o userId filteredGames likedGames
      sessGenres sessRyf topN).Sublist filteredGames := by
  unfold collaborative_filtering_with_fallback
  refine (List.take_sublist _ _).trans ?_
  split
  · exact get_advanced_similar_games_sublist o _ _ _ _ _ _ _
  · split
    · exact collaborative_filtering_sublist o _ _ _
    · exact List.nil_sublist _

theorem mem_filter_disliked_games (games : List Game) (disliked : List String)
    (g : Game) (hg : g ∈ filter_disliked_games games disliked) :
    g ∈ games ∧ lowerStr g.title ∉ disliked.map (fun d => lowerStr d) ∧
      toString g.app_id ∉ disliked.filter isDigitString := by
  unfold filter_disliked_games at hg
  by_cases hd : disliked.isEmpty
  · rw [if_pos hd] at hg
    rw [List.isEmpty_iff.mp hd]
    simp [hg]
  · rw [if_neg hd] at hg
    by_cases hgames : games.isEmpty
    · rw [if_pos hgames] at hg
      rw [List.isEmpty_iff.mp hgames] at hg
      simp at hg
    · rw [if_neg hgames] at hg
      have hti : g ∈ dislikedTitlePass disliked games := by
        unfold dislikedIdPass at hg
        split at hg
        · exact hg
        · exact (List.mem_filter.mp hg).1
      have hidp : toString g.app_id ∉ disliked.filter isDigitString := by
        unfold dislikedIdPass at hg
        split at hg
        · rename_i hids
          rw [List.isEmpty_iff.mp hids]
          simp
        · exact not_mem_of_bnot_contains (List.mem_filter.mp hg).2
      rcases List.mem_filter.mp hti with ⟨hmem, htitle⟩
      exact ⟨hmem, not_mem_of_bnot_contains htitle, hidp⟩

theorem dislikedTitlePass_sublist (disliked : List String) (games : List Game) :
    (dislikedTitlePass disliked games).Sublist games :=
  List.filter_sublist games

theorem dislikedIdPass_sublist (disliked : List String) (byTitle : List Game) :
    (dislikedIdPass disliked byTitle).Sublist byTitle := by
  unfold dislikedIdPass
  split
  · exact List.Sublist.refl _
  · exact List.filter_sublist _

theorem filter_disliked_games_sublist (games : List Game) (disliked : List String) :
    (filter_disliked_games games disliked).Sublist games := by
  unfold filter_disliked_games
  split
  · exact List.Sublist.refl games
  · split
    · exact List.Sublist.refl games
    · exact (dislikedIdPass_sublist _ _).trans (dislikedTitlePass_sublist _ _)

theorem mem_applyExcludedTag (df : List Game) (tag : String) (g : Game)
    (hg : g ∈ applyExcludedTag df tag) :
    g ∈ df ∧ colHit g.tags tag = false ∧ colHit g.themes tag = false := by
  unfold applyExcludedTag at hg
  rcases List.mem_filter.mp hg with ⟨hg1, h2⟩
  rcases List.mem_filter.mp hg1 with ⟨hmem, h1⟩
  exact ⟨hmem, by simpa using h1, by simpa using h2⟩

theorem applyExcludedTag_sublist (df : List Game) (tag : String) :
    (applyExcludedTag df tag).Sublist df := by
  unfold applyExcludedTag
  exact (List.filter_sublist _).trans (List.filter_sublist _)

theorem mem_exclFold (tags : List String) :
    ∀ (l : List Game) (g : Game), g ∈ List.foldl applyExcludedTag l tags →
      g ∈ l ∧ ∀ tag ∈ tags, colHit g.tags tag = false ∧
        colHit g.themes tag = false := by
  induction tags with
  | nil => intro l g hg; simpa using hg
  | cons t ts ih =>
      intro l g hg
      rw [List.foldl_cons] at hg
      rcases ih (applyExcludedTag l t) g hg with ⟨hmem, hrest⟩
      rcases mem_applyExcludedTag l t g hmem with ⟨hl, h1, h2⟩
      refine ⟨hl, ?_⟩
      intro tag htag
      rcases List.mem_cons.mp htag with h | h
      · subst h; exact ⟨h1, h2⟩
      · exact hrest tag h

theorem exclFold_sublist (tags : List String) :
    ∀ l : List Game, (List.foldl applyExcludedTag l tags).Sublist l := by
  induction tags with
  | nil => intro l; simp
  | cons t ts ih =>
      intro l
      rw [List.foldl_cons]
      exact (ih (applyExcludedTag l t)).trans (applyExcludedTag_sublist l t)

theorem genreFold_sublist (gs : List String) :
    ∀ l : List Game, (List.foldl filter_games_by_genre l gs).Sublist l := by
  induction gs with
  | nil => intro l; simp
  | cons t ts ih =>
      intro l
      rw [List.foldl_cons]
      exact (ih _).trans (List.filter_sublist l)

theorem pipelineFiltered_sublist (catalog : List Game)
    (disliked excludedTags genresN : List String) :
    (pipelineFiltered catalog disliked excludedTags genresN).Sublist catalog := by
  unfold pipelineFiltered
  have base := (exclFold_sublist excludedTags (filter_disliked_games catalog disliked)).trans
    (filter_disliked_games_sublist catalog disliked)
  split
  · exact base
  · exact (genreFold_sublist genresN _).trans base

theorem mem_pipelineFiltered (catalog : List Game)
    (disliked excludedTags genresN : List String) (g : Game)
    (hg : g ∈ pipelineFiltered catalog disliked excludedTags genresN) :
    g ∈ catalog ∧ lowerStr g.title ∉ disliked.map (fun d => lowerStr d) ∧
      toString g.app_id ∉ disliked.filter isDigitString ∧
      ∀ tag ∈ excludedTags, colHit g.tags tag = false ∧
        colHit g.themes tag = false := by
  unfold pipelineFiltered at hg
  have hg2 : g ∈ List.foldl applyExcludedTag (filter_disliked_games catalog disliked)
      excludedTags := by
    by_cases hge : genresN.isEmpty
    · rw [if_pos hge] at hg; exact hg
    · rw [if_neg hge] at hg
      exact (genreFold_sublist genresN _).subset hg
  rcases mem_exclFold excludedTags _ g hg2 with ⟨hg1, hexcl⟩
  rcases mem_filter_disliked_games catalog disliked g hg1 with ⟨hcat, ht, hid⟩
  exact ⟨hcat, ht, hid, hexcl⟩

theorem mem_dedupByAppId_go (l : List Game) :
    ∀ (seen : List Nat) (g : Game), g ∈ dedupByAppId.go seen l → g ∈ l := by
  induction l with
  | nil => intro seen g hg; simp [dedupByAppId.go] at hg
  | cons a rest ih =>
      intro seen g hg
      unfold dedupByAppId.go at hg
      split at hg
      · exact List.mem_cons_of_mem _ (ih _ g hg)
      · rcases List.mem_cons.mp hg with h | h
        · subst h; exact List.mem_cons_self _ _
        · exact List.mem_cons_of_mem _ (ih _ g h)

theorem dedupByAppId_go_ids (l : List Game) :
    ∀ seen : List Nat, ((dedupByAppId.go seen l).map (fun g => g.app_id)).Nodup ∧
      ∀ i ∈ (dedupByAppId.go seen l).map (fun g => g.app_id), seen.contains i = false := by
  induction l with
  | nil => intro seen; simp [dedupByAppId.go]
  | cons a rest ih =>
      intro seen
      unfold dedupByAppId.go
      split
      · exact ih seen
      · rename_i hnot
        rcases ih (a.app_id :: seen) with ⟨hnd, hfresh⟩
        constructor
        · rw [List.map_cons, List.nodup_cons]
          refine ⟨?_, hnd⟩
          intro hcon
          have := hfresh a.app_id hcon
          simp at this
        · intro i hi
          rw [List.map_cons] at hi
          rcases List.mem_cons.mp hi with h | h
          · subst h
            simpa using hnot
          · have hfr := hfresh i h
            have hns : i ∉ seen := fun hm =>
              not_mem_of_contains_false hfr (List.mem_cons_of_mem _ hm)
            cases hc : seen.contains i
            · rfl
            · exact absurd (mem_of_contains_true hc) hns

theorem dedupByAppId_ids_nodup (l : List Game) :
    ((dedupByAppId l).map (fun g => g.app_id)).Nodup :=
  (dedupByAppId_go_ids l []).1

theorem mem_dedupByAppId (l : List Game) (g : Game) (hg : g ∈ dedupByAppId l) :
    g ∈ l :=
  mem_dedupByAppId_go l [] g hg

theorem mem_tier2Accumulate (o : Oracles) (filteredGames : List Game)
    (genresN : List String) (localRyf : Option YearFilter) (liked : List String)
    (g : Game) (hg : g ∈ tier2Accumulate o filteredGames genresN localRyf liked) :
    g ∈ filteredGames := by
  unfold tier2Accumulate at hg
  rcases List.exists_of_mem_flatMap hg with ⟨t, _, hin⟩
  exact (get_advanced_similar_games_sublist o _ _ _ _ _ _ _).subset hin

/- ## Lemmas about the argsort-based index selection -/

theorem topIndices_perm_aux (scores : List ℚ) :
    (List.insertionSort (fun i j => scores.getD i 0 ≤ scores.getD j 0)
      (List.range scores.length)).Perm (List.range scores.length) :=
  List.perm_insertionSort _ _

theorem topIndices_sorted_aux (scores : List ℚ) :
    List.Pairwise (fun i j => scores.getD i 0 ≤ scores.getD j 0)
      (List.insertionSort (fun i j => scores.getD i 0 ≤ scores.getD j 0)
        (List.range scores.length)) := by
  haveI : IsTotal Nat (fun i j => scores.getD i 0 ≤ scores.getD j 0) :=
    ⟨fun a b => le_total _ _⟩
  haveI : IsTrans Nat (fun i j => scores.getD i 0 ≤ scores.getD j 0) :=
    ⟨fun a b c hab hbc => le_trans hab hbc⟩
  exact List.sorted_insertionSort _ _

theorem mem_topIndices_lt (scores : List ℚ) (topN : Nat) (i : Nat)
    (hi : i ∈ topIndices scores topN) : i < scores.length := by
  unfold topIndices at hi
  rw [List.mem_reverse] at hi
  have h1 : i ∈ List.insertionSort (fun i j => scores.getD i 0 ≤ scores.getD j 0)
      (List.range scores.length) := by
    unfold lastSlice at hi
    split at hi
    · exact hi
    · exact (List.drop_sublist _ _).subset hi
  have := (topIndices_perm_aux scores).subset h1
  simpa using this

theorem topIndices_length (scores : List ℚ) (topN : Nat) (h : 0 < topN) :
    (topIndices scores topN).length = min topN scores.length := by
  unfold topIndices lastSlice
  rw [if_neg (Nat.pos_iff_ne_zero.mp h)]
  rw [List.length_reverse, List.length_drop, (topIndices_perm_aux scores).length_eq,
    List.length_range]
  omega

theorem topIndices_dominate (scores : List ℚ) (topN : Nat) (i j : Nat)
    (hi : i ∈ topIndices scores topN) (hj : j < scores.length)
    (hjn : j ∉ topIndices scores topN) :
    scores.getD j 0 ≤ scores.getD i 0 := by
  set srt := List.insertionSort (fun i j => scores.getD i 0 ≤ scores.getD j 0)
    (List.range scores.length) with hsrt
  unfold topIndices at hi hjn
  rw [List.mem_reverse] at hi
  rw [List.mem_reverse] at hjn
  rw [← hsrt] at hi hjn
  have hjmem : j ∈ srt := (topIndices_perm_aux scores).mem_iff.mpr (by simpa using hj)
  unfold lastSlice at hi hjn
  by_cases h0 : topN = 0
  · rw [if_pos h0] at hjn
    exact absurd hjmem hjn
  · rw [if_neg h0] at hi hjn
    have hsplit : srt = srt.take (srt.length - topN) ++ srt.drop (srt.length - topN) :=
      (List.take_append_drop _ _).symm
    have hjtake : j ∈ srt.take (srt.length - topN) := by
      rcases List.mem_append.mp (hsplit ▸ hjmem) with h | h
      · exact h
      · exact absurd h hjn
    have hpw := topIndices_sorted_aux scores
    rw [← hsrt, hsplit, List.pairwise_append] at hpw
    exact hpw.2.2 j hjtake i hi

/-- Dot product of two rational vectors; the numeric core of a cosine
similarity whose norms are fixed. It is exposed so counterexample inputs can
realize concrete similarity scores, while `Oracles.cosineScores` keeps the
sklearn call abstract. -/
def dotProd (u v : List ℚ) : ℚ :=
  (List.zipWith (· * ·) u v).foldl (· + ·) 0

/- ## Further helper lemmas -/

theorem mem_applyYearFilter_some (f : YearFilter) (l : List Game) (g : Game)
    (hg : g ∈ applyYearFilter (some f) l)
    (hc : f.comparator = "after" ∨ f.comparator = "before" ∨ f.comparator = "exact") :
    g ∈ l ∧ ∃ yr, g.date_release = some yr ∧
      ((f.comparator = "after" → f.year < yr) ∧
       (f.comparator = "before" → yr < f.year) ∧
       (f.comparator = "exact" → yr = f.year)) := by
  simp only [applyYearFilter] at hg
  rcases hc with hca | hcb | hce
  · rw [if_pos hca] at hg
    rcases List.mem_filter.mp hg with ⟨hmem, hcond⟩
    refine ⟨hmem, ?_⟩
    cases hdr : g.date_release with
    | none => rw [hdr] at hcond; simp at hcond
    | some yr =>
        rw [hdr] at hcond
        refine ⟨yr, rfl, fun _ => by simpa using hcond, ?_, ?_⟩
        · intro hcon; rw [hca] at hcon; exact absurd hcon (by decide)
        · intro hcon; rw [hca] at hcon; exact absurd hcon (by decide)
  · rw [if_neg (by rw [hcb]; decide), if_pos hcb] at hg
    rcases List.mem_filter.mp hg with ⟨hmem, hcond⟩
    refine ⟨hmem, ?_⟩
    cases hdr : g.date_release with
    | none => rw [hdr] at hcond; simp at hcond
    | some yr =>
        rw [hdr] at hcond
        refine ⟨yr, rfl, ?_, fun _ => by simpa using hcond, ?_⟩
        · intro hcon; rw [hcb] at hcon; exact absurd hcon (by decide)
        · intro hcon; rw [hcb] at hcon; exact absurd hcon (by decide)
  · rw [if_neg (by rw [hce]; decide), if_neg (by rw [hce]; decide), if_pos hce] at hg
    rcases List.mem_filter.mp hg with ⟨hmem, hcond⟩
    refine ⟨hmem, ?_⟩
    cases hdr : g.date_release with
    | none => rw [hdr] at hcond; simp at hcond
    | some yr =>
        rw [hdr] at hcond
        refine ⟨yr, rfl, ?_, ?_, fun _ => by simpa using hcond⟩
        · intro hcon; rw [hce] at hcon; exact absurd hcon (by decide)
        · intro hcon; rw [hce] at hcon; exact absurd hcon (by decide)

theorem mem_of_allSome : ∀ {l : List (Option α)} {ys : List α},
    allSome l = some ys → ∀ y ∈ ys, ∃ x ∈ l, x = some y := by
  intro l
  induction l with
  | nil =>
      intro ys h y hy
      simp [allSome] at h
      subst h
      simp at hy
  | cons x rest ih =>
      intro ys h y hy
      cases x with
      | none => simp [allSome] at h
      | some a =>
          unfold allSome at h
          rcases Option.map_eq_some'.mp h with ⟨zs, hzs, hys⟩
          subst hys
          rcases List.mem_cons.mp hy with h1 | h1
          · subst h1
            exact ⟨some y, List.mem_cons_self _ _, rfl⟩
          · rcases ih hzs y h1 with ⟨ox, hox, hval⟩
            exact ⟨ox, List.mem_cons_of_mem _ hox, hval⟩

theorem bind_filter_of_nil (f : String → List Game) (t : String) (h : f t = []) :
    ∀ l : List String, l.flatMap f = (l.filter (fun s => !(s == t))).flatMap f := by
  intro l
  induction l with
  | nil => rfl
  | cons s rest ih =>
      rw [List.flatMap_cons, List.filter_cons]
      by_cases hs : s = t
      · subst hs
        have hsame : (!(s == s)) = false := by simp
        rw [hsame, if_neg (by simp), h, List.nil_append, ih]
      · have hne : (!(s == t)) = true := by simpa using hs
        rw [hne, if_pos rfl, List.flatMap_cons, ih]

theorem take_ne_nil_of_ne_nil {l : List α} (h : l ≠ []) (n : Nat) (hn : 0 < n) :
    l.take n ≠ [] := by
  cases l with
  | nil => exact absurd rfl h
  | cons a rest =>
      cases n with
      | zero => omega
      | succ m => simp

theorem dedupByAppId_ne_nil {l : List Game} (h : l ≠ []) : dedupByAppId l ≠ [] := by
  cases l with
  | nil => exact absurd rfl h
  | cons g rest =>
      unfold dedupByAppId dedupByAppId.go
      simp

theorem cfwf_length_le (o : Oracles) (userId : Option Int)
    (filteredGames : List Game) (likedGames : List String)
    (sessGenres : List String) (sessRyf : Option YearFilter) (topN : Nat) :
    (collaborative_filtering_with_fallback o userId filteredGames likedGames
      sessGenres sessRyf topN).length ≤ topN := by
  unfold collaborative_filtering_with_fallback
  rw [List.length_take]
  exact min_le_left _ _

theorem cfwf_zero (o : Oracles) (userId : Option Int)
    (filteredGames : List Game) (likedGames : List String)
    (sessGenres : List String) (sessRyf : Option YearFilter) :
    collaborative_filtering_with_fallback o userId filteredGames likedGames
      sessGenres sessRyf 0 = [] := by
  unfold collaborative_filtering_with_fallback
  rw [List.take_zero]

theorem tier3Recs_length_le (o : Oracles) (catalog : List Game)
    (liked : List String) (topN : Nat) :
    (tier3Recs o catalog liked topN).length ≤ topN := by
  unfold tier3Recs
  dsimp only
  split
  · simp
  · rw [List.length_take]
    exact min_le_left _ _

theorem sortByPosDesc_take_ids_nodup (l : List Game) (n : Nat)
    (h : (l.map (fun g => g.app_id)).Nodup) :
    (((sortByPosDesc l).take n).map (fun g => g.app_id)).Nodup := by
  have hperm : (sortByPosDesc l).Perm l := List.perm_insertionSort _ _
  have h2 : ((sortByPosDesc l).map (fun g => g.app_id)).Nodup :=
    ((hperm.map (fun g => g.app_id)).nodup_iff).mpr h
  exact List.Nodup.sublist ((List.take_sublist _ _).map (fun g : Game => g.app_id)) h2

theorem tier3Recs_ids_nodup (o : Oracles) (catalog : List Game)
    (liked : List String) (topN : Nat)
    (h : (catalog.map (fun g => g.app_id)).Nodup) :
    ((tier3Recs o catalog liked topN).map (fun g => g.app_id)).Nodup := by
  unfold tier3Recs
  dsimp only
  split
  · simp
  · exact sortByPosDesc_take_ids_nodup _ _
      (List.Nodup.sublist ((List.filter_sublist _).map (fun g : Game => g.app_id)) h)

theorem pipeAfterT2_mem (o : Oracles) (catalog : List Game)
    (liked disliked excludedTags rawGenres sessGenres : List String)
    (sessRyf localRyf : Option YearFilter) (userId : Option Int) (topN : Nat)
    (g : Game)
    (hg : g ∈ pipeAfterT2 o catalog liked disliked excludedTags rawGenres sessGenres
      sessRyf localRyf userId topN) :
    g ∈ pipelineFiltered catalog disliked excludedTags (rawGenres.map normalize_genre) := by
  unfold pipeAfterT2 at hg
  split at hg
  · rename_i hcond
    split at hg
    · exact (collaborative_filtering_with_fallback_sublist o _ _ _ _ _ _).subset hg
    · have h1 := mem_dedupByAppId _ _ ((List.take_sublist _ _).subset hg)
      unfold pipeAcc at h1
      rw [if_pos hcond] at h1
      exact mem_tier2Accumulate o _ _ _ _ g h1
  · exact (collaborative_filtering_with_fallback_sublist o _ _ _ _ _ _).subset hg

theorem handle_recs_mem_of_not_tier3 (o : Oracles) (catalog : List Game)
    (liked disliked excludedTags rawGenres sessGenres : List String)
    (sessRyf localRyf : Option YearFilter) (userId : Option Int) (topN : Nat)
    (h : pipeTier3Cond o catalog liked disliked excludedTags rawGenres sessGenres
      sessRyf localRyf userId topN = false)
    (g : Game)
    (hg : g ∈ (handle_recommend_games o catalog liked disliked excludedTags rawGenres
      sessGenres sessRyf localRyf userId topN).recs) :
    g ∈ pipelineFiltered catalog disliked excludedTags (rawGenres.map normalize_genre) := by
  unfold handle_recommend_games at hg
  dsimp only at hg
  rw [h] at hg
  simp only [Bool.false_eq_true, if_false] at hg
  exact pipeAfterT2_mem o catalog liked disliked excludedTags rawGenres sessGenres
    sessRyf localRyf userId topN g hg

theorem pipeAfterT2_length_le (o : Oracles) (catalog : List Game)
    (liked disliked excludedTags rawGenres sessGenres : List String)
    (sessRyf localRyf : Option YearFilter) (userId : Option Int) (topN : Nat) :
    (pipeAfterT2 o catalog liked disliked excludedTags rawGenres sessGenres
      sessRyf localRyf userId topN).length ≤ topN := by
  unfold pipeAfterT2
  split
  · split
    · exact cfwf_length_le o _ _ _ _ _ _
    · rw [List.length_take]
      exact min_le_left _ _
  · exact cfwf_length_le o _ _ _ _ _ _

theorem tier3Recs_zero (o : Oracles) (catalog : List Game) (liked : List String) :
    tier3Recs o catalog liked 0 = [] := by
  unfold tier3Recs
  dsimp only
  split
  · rfl
  · rw [List.take_zero]

theorem pipeAfterT2_zero (o : Oracles) (catalog : List Game)
    (liked disliked excludedTags rawGenres sessGenres : List String)
    (sessRyf localRyf : Option YearFilter) (userId : Option Int) :
    pipeAfterT2 o catalog liked disliked excludedTags rawGenres sessGenres
      sessRyf localRyf userId 0 = [] := by
  unfold pipeAfterT2
  split
  · split
    · exact cfwf_zero o _ _ _ _ _
    · rw [List.take_zero]
  · exact cfwf_zero o _ _ _ _ _

/- ## Claim theorems -/

/-- C7: for every input and every `top_n ≥ 0`, the final recommendation
output — of `collaborative_filtering_with_fallback` and of the full handler
pipeline — contains at most `top_n` entries, and calling with `top_n = 0`
yields an empty output (no error: the model is total). -/
theorem claim_C7_size_bound : ∀ (o : Oracles) (catalog : List Game)
    (liked disliked excludedTags rawGenres sessGenres : List String)
    (sessRyf localRyf : Option YearFilter) (userId : Option Int)
    (filteredGames : List Game) (likedGames : List String) (topN : Nat),
    (collaborative_filtering_with_fallback o userId filteredGames likedGames
      sessGenres sessRyf topN).length ≤ topN ∧
    collaborative_filtering_with_fallback o userId filteredGames likedGames
      sessGenres sessRyf 0 = [] ∧
    (handle_recommend_games o catalog liked disliked excludedTags rawGenres
      sessGenres sessRyf localRyf userId topN).recs.length ≤ topN ∧
    (handle_recommend_games o catalog liked disliked excludedTags rawGenres
      sessGenres sessRyf localRyf userId 0).recs = [] := by
  intro o catalog liked disliked excludedTags rawGenres sessGenres sessRyf localRyf
    userId filteredGames likedGames topN
  refine ⟨cfwf_length_le o userId filteredGames likedGames sessGenres sessRyf topN,
    cfwf_zero o userId filteredGames likedGames sessGenres sessRyf, ?_, ?_⟩
  · unfold handle_recommend_games
    dsimp only
    split
    · exact tier3Recs_length_le o catalog liked topN
    · exact pipeAfterT2_length_le o catalog liked disliked excludedTags rawGenres
        sessGenres sessRyf localRyf userId topN
  · unfold handle_recommend_games
    dsimp only
    split
    · exact tier3Recs_zero o catalog liked
    · exact pipeAfterT2_zero o catalog liked disliked excludedTags rawGenres
        sessGenres sessRyf localRyf userId

/-- C8: whenever `release_year_filter` is present with comparator `after`,
`before` or `exact`, every entry the Similarity Retriever returns carries a
parsed release year satisfying the comparator; in particular an entry with a
missing or unparseable release date (modelled `date_release = none`) never
survives this step (fail-closed). -/
theorem claim_C8_release_year_filter (o : Oracles) (uq : Sum String (List String))
    (combined : List Game) (genres : List String) (comp : String) (y : Int)
    (k thr mult : Nat)
    (hc : comp = "after" ∨ comp = "before" ∨ comp = "exact") :
    ∀ g ∈ get_advanced_similar_games o uq combined genres (some ⟨comp, y⟩) k thr mult,
      ∃ yr, g.date_release = some yr ∧
        (comp = "after" → y < yr) ∧ (comp = "before" → yr < y) ∧
        (comp = "exact" → yr = y) := by
  intro g hg
  unfold get_advanced_similar_games at hg
  split at hg
  · simp at hg
  · split at hg
    · simp at hg
    · have h1 := (fuzzyWalk_sublist _ _ _ _ _).subset ((List.take_sublist _ _).subset hg)
      unfold retrieverSurvivors at h1
      have h2 := (stepInputTitles_sublist _ _).subset h1
      exact (mem_applyYearFilter_some ⟨comp, y⟩ _ g h2 hc).2

/-- C10: the session mutators `update_likes`, `update_dislikes` and
`set_excluded_tags` are all set-union updates: they only add, each stored set
grows monotonically, `set_excluded_tags` accumulates rather than replaces,
and re-applying it with already-present tags leaves the session unchanged. -/
theorem claim_C10_session_monotone (s : UserSession) (g d e : Finset String)
    (h : e ⊆ s.excluded_tags) :
    s.liked_games ⊆ (s.update_likes g).liked_games ∧
    (s.update_likes g).liked_games = s.liked_games ∪ g ∧
    s.disliked_games ⊆ (s.update_dislikes d).disliked_games ∧
    (s.update_dislikes d).disliked_games = s.disliked_games ∪ d ∧
    s.excluded_tags ⊆ (s.set_excluded_tags e).excluded_tags ∧
    (s.set_excluded_tags e).excluded_tags = s.excluded_tags ∪ e ∧
    s.set_excluded_tags e = s := by
  refine ⟨Finset.subset_union_left, rfl, Finset.subset_union_left, rfl,
    Finset.subset_union_left, rfl, ?_⟩
  unfold UserSession.set_excluded_tags
  rw [Finset.union_eq_left.mpr h]

/-- C6: unavailable user embedding, unavailable item-embedding space, and a
similarity index that raises are all absorbed as empty results — a `none`
from the encoder makes `get_user_embedding` return `None`, a `none` from the
model's score computation makes `collaborative_filtering` return an empty
frame, a raising vector store makes `get_advanced_similar_games` return an
empty frame, and in the Tier-2 loop one failing liked title contributes
nothing while leaving every other liked title's query untouched. -/
theorem claim_C6_error_absorption (o : Oracles) (uid : Int) (emb : List ℚ)
    (filteredGames combined : List Game)
    (genres genresN : List String) (ryf localRyf : Option YearFilter)
    (uq : Sum String (List String)) (k thr mult topN : Nat)
    (liked : List String) (t : String)
    (h1 : o.userEnc uid = none)
    (h2 : o.cosineScores emb = none)
    (h3 : o.vs (queryText uq) (k * mult) = none)
    (h4 : o.vs t (3 * 5) = none) :
    get_user_embedding o uid = none ∧
    collaborative_filtering o emb filteredGames topN = [] ∧
    get_advanced_similar_games o uq combined genres ryf k thr mult = [] ∧
    tier2Accumulate o filteredGames genresN localRyf liked =
      tier2Accumulate o filteredGames genresN localRyf
        (liked.filter (fun s => !(s == t))) := by
  refine ⟨h1, ?_, ?_, ?_⟩
  · unfold collaborative_filtering
    rw [h2]
  · unfold get_advanced_similar_games
    rw [h3]
  · unfold tier2Accumulate
    apply bind_filter_of_nil
    show get_advanced_similar_games o (Sum.inl t) filteredGames genresN localRyf 3 95 5 = []
    unfold get_advanced_similar_games
    have hq : queryText (Sum.inl t) = t := rfl
    rw [hq, h4]

/-- C5 (amended): after the post-filters, the retriever's fuzzy-dedup walk
visits the surviving entries in candidate-pool (catalog DataFrame) row order
— not retrieval-rank order — keeping an entry only if its title's
partial-ratio similarity to every previously kept title is below the
threshold, and at most `k` entries are returned: the output is a sublist of
the candidate pool, pairwise fuzzy-dissimilar under the threshold, of length
at most `k`. -/
theorem claim_C5_amended (o : Oracles) (uq : Sum String (List String))
    (combined : List Game) (genres : List String) (ryf : Option YearFilter)
    (k thr mult : Nat) :
    (get_advanced_similar_games o uq combined genres ryf k thr mult).Sublist combined ∧
    (get_advanced_similar_games o uq combined genres ryf k thr mult).length ≤ k ∧
    List.Pairwise (fun a b => o.fuzz b.title a.title < thr)
      (get_advanced_similar_games o uq combined genres ryf k thr mult) := by
  refine ⟨get_advanced_similar_games_sublist o uq combined genres ryf k thr mult, ?_, ?_⟩
  · unfold get_advanced_similar_games
    split
    · simp
    · split
      · simp
      · rw [List.length_take]
        exact min_le_left _ _
  · unfold get_advanced_similar_games
    split
    · simp
    · split
      · simp
      · exact (fuzzyWalk_pairwise _ _ _ _ _).sublist (List.take_sublist _ _)

theorem isEmpty_false_of_ne_nil {l : List α} (h : l ≠ []) : l.isEmpty = false := by
  cases l with
  | nil => exact absurd rfl h
  | cons a rest => rfl

theorem pipeTier1_sublist_catalog (o : Oracles) (catalog : List Game)
    (liked disliked excludedTags rawGenres sessGenres : List String)
    (sessRyf : Option YearFilter) (userId : Option Int) (topN : Nat) :
    (pipeTier1 o catalog liked disliked excludedTags rawGenres sessGenres sessRyf
      userId topN).Sublist catalog := by
  unfold pipeTier1
  exact (collaborative_filtering_with_fallback_sublist o _ _ _ _ _ _).trans
    (pipelineFiltered_sublist catalog disliked excludedTags _)

theorem pipeAfterT2_empty_iff (o : Oracles) (catalog : List Game)
    (liked disliked excludedTags rawGenres sessGenres : List String)
    (sessRyf localRyf : Option YearFilter) (userId : Option Int) (topN : Nat)
    (hl : liked ≠ []) (ht : 0 < topN) :
    (pipeAfterT2 o catalog liked disliked excludedTags rawGenres sessGenres sessRyf
        localRyf userId topN = []) ↔
      (pipeTier1 o catalog liked disliked excludedTags rawGenres sessGenres sessRyf
          userId topN = [] ∧
       pipeAcc o catalog liked disliked excludedTags rawGenres sessGenres sessRyf
          localRyf userId topN = []) := by
  have hlb : liked.isEmpty = false := isEmpty_false_of_ne_nil hl
  unfold pipeAfterT2
  by_cases hc : pipeTier2Cond o catalog liked disliked excludedTags rawGenres sessGenres
      sessRyf userId topN = true
  · rw [if_pos hc]
    have hT1 : pipeTier1 o catalog liked disliked excludedTags rawGenres sessGenres
        sessRyf userId topN = [] := by
      unfold pipeTier2Cond at hc
      rw [hlb] at hc
      simp only [Bool.not_false, Bool.and_true] at hc
      exact List.isEmpty_iff.mp hc
    by_cases ha : (pipeAcc o catalog liked disliked excludedTags rawGenres sessGenres
        sessRyf localRyf userId topN).isEmpty = true
    · rw [if_pos ha]
      simp [hT1, List.isEmpty_iff.mp ha]
    · rw [if_neg ha]
      have hane : pipeAcc o catalog liked disliked excludedTags rawGenres sessGenres
          sessRyf localRyf userId topN ≠ [] := by
        intro he
        rw [he] at ha
        exact ha rfl
      have htake : (dedupByAppId (pipeAcc o catalog liked disliked excludedTags rawGenres
          sessGenres sessRyf localRyf userId topN)).take topN ≠ [] :=
        take_ne_nil_of_ne_nil (dedupByAppId_ne_nil hane) topN ht
      simp [htake, hane]
  · rw [if_neg hc]
    have hT1ne : pipeTier1 o catalog liked disliked excludedTags rawGenres sessGenres
        sessRyf userId topN ≠ [] := by
      intro he
      apply hc
      unfold pipeTier2Cond
      rw [he, hlb]
      rfl
    simp [hT1ne]

/-- C2 (amended): given similarity scores for every item vector, the
collaborative step selects the indices of the globally `top_n` highest
scores (every selected index's score dominates every unselected one, and
exactly `min top_n (number of items)` indices are selected when `top_n > 0`),
maps them through the encoder, and returns those candidates whose id is among
the images — as a sublist of the candidate frame, i.e. in catalog insertion
order rather than descending-score order, and possibly with fewer than
`top_n` entries even when the candidate set is larger. -/
theorem claim_C2_amended (o : Oracles) (emb scores : List ℚ)
    (filteredGames : List Game) (topN : Nat)
    (hs : o.cosineScores emb = some scores) :
    (collaborative_filtering o emb filteredGames topN).Sublist filteredGames ∧
    (∀ g ∈ collaborative_filtering o emb filteredGames topN,
      ∃ i ∈ topIndices scores topN, o.gameEncoderInv i = some g.app_id) ∧
    (∀ i ∈ topIndices scores topN, ∀ j, j < scores.length →
      j ∉ topIndices scores topN → scores.getD j 0 ≤ scores.getD i 0) ∧
    (0 < topN → (topIndices scores topN).length = min topN scores.length) := by
  refine ⟨collaborative_filtering_sublist o emb filteredGames topN, ?_,
    fun i hi j hj hjn => topIndices_dominate scores topN i j hi hj hjn,
    fun h => topIndices_length scores topN h⟩
  intro g hg
  unfold collaborative_filtering at hg
  rw [hs] at hg
  dsimp only at hg
  cases hAS : allSome ((topIndices scores topN).map o.gameEncoderInv) with
  | none =>
      rw [hAS] at hg
      simp at hg
  | some appIds =>
      rw [hAS] at hg
      have hin : g.app_id ∈ appIds := mem_of_contains_true (List.mem_filter.mp hg).2
      rcases mem_of_allSome hAS g.app_id hin with ⟨ox, hox, hval⟩
      rcases List.mem_map.mp hox with ⟨i, hi, hoxi⟩
      exact ⟨i, hi, hoxi.trans hval⟩

/-- C1 (amended): whenever the Tier-3 genre fallback is NOT invoked, no
entry of the final output has a disliked title (case-insensitive), an id
printed among the all-digit disliked entries, or a tags/themes match against
any excluded tag. Two parts of the original claim are NOT guaranteed: the
genres mask of the exclusion loop is a no-op in the program (the `genres`
column holds Python lists after `normalize_genres`, on which
`Series.str.contains(..., na=False)` is `False` everywhere, so its negation
keeps every row — see `applyExcludedTag`), meaning an entry matching an
excluded tag only through its genres can appear even in Tier 1/2 output; and
Tier 3 draws from the unfiltered catalog, so every guarantee is lost there —
see the counterexample. -/
theorem claim_C1_amended (o : Oracles) (catalog : List Game)
    (liked disliked excludedTags rawGenres sessGenres : List String)
    (sessRyf localRyf : Option YearFilter) (userId : Option Int) (topN : Nat)
    (h : (handle_recommend_games o catalog liked disliked excludedTags rawGenres
      sessGenres sessRyf localRyf userId topN).tier3Invoked = false) :
    ∀ g ∈ (handle_recommend_games o catalog liked disliked excludedTags rawGenres
      sessGenres sessRyf localRyf userId topN).recs,
      lowerStr g.title ∉ disliked.map (fun d => lowerStr d) ∧
      toString g.app_id ∉ disliked.filter isDigitString ∧
      ∀ tag ∈ excludedTags, colHit g.tags tag = false ∧
        colHit g.themes tag = false := by
  intro g hg
  have h' : pipeTier3Cond o catalog liked disliked excludedTags rawGenres sessGenres
      sessRyf localRyf userId topN = false := h
  have hin := handle_recs_mem_of_not_tier3 o catalog liked disliked excludedTags
    rawGenres sessGenres sessRyf localRyf userId topN h' g hg
  rcases mem_pipelineFiltered catalog disliked excludedTags _ g hin with
    ⟨_, htl, hid, hexcl⟩
  exact ⟨htl, hid, hexcl⟩

/-- C4 (amended): with a nonempty liked list and positive `top_n` (the
handler runs with `top_n = 5` and a verified nonempty liked list), the
per-liked-title Tier 2 is invoked exactly when the Tier-1 STAGE — the
collaborative scorer together with its internal joined-liked-titles
content-based fallback — produced an EMPTY result (not merely fewer than
`top_n`); Tier 3 is invoked exactly when Tier 1 was empty and Tier 2
accumulated nothing; a Tier-1 stage yielding at least `top_n` results
suppresses Tiers 2 and 3; and any nonempty Tier-2 accumulation suppresses
Tier 3. -/
theorem claim_C4_amended (o : Oracles) (catalog : List Game)
    (liked disliked excludedTags rawGenres sessGenres : List String)
    (sessRyf localRyf : Option YearFilter) (userId : Option Int) (topN : Nat)
    (hl : liked ≠ []) (ht : 0 < topN) :
    ((handle_recommend_games o catalog liked disliked excludedTags rawGenres sessGenres
        sessRyf localRyf userId topN).tier2Invoked = true ↔
      (handle_recommend_games o catalog liked disliked excludedTags rawGenres sessGenres
        sessRyf localRyf userId topN).tier1 = []) ∧
    ((handle_recommend_games o catalog liked disliked excludedTags rawGenres sessGenres
        sessRyf localRyf userId topN).tier3Invoked = true ↔
      ((handle_recommend_games o catalog liked disliked excludedTags rawGenres sessGenres
          sessRyf localRyf userId topN).tier1 = [] ∧
       (handle_recommend_games o catalog liked disliked excludedTags rawGenres sessGenres
          sessRyf localRyf userId topN).tier2Acc = [])) ∧
    (topN ≤ (handle_recommend_games o catalog liked disliked excludedTags rawGenres
        sessGenres sessRyf localRyf userId topN).tier1.length →
      (handle_recommend_games o catalog liked disliked excludedTags rawGenres sessGenres
        sessRyf localRyf userId topN).tier2Invoked = false ∧
      (handle_recommend_games o catalog liked disliked excludedTags rawGenres sessGenres
        sessRyf localRyf userId topN).tier3Invoked = false) ∧
    ((handle_recommend_games o catalog liked disliked excludedTags rawGenres sessGenres
        sessRyf localRyf userId topN).tier2Acc ≠ [] →
      (handle_recommend_games o catalog liked disliked excludedTags rawGenres sessGenres
        sessRyf localRyf userId topN).tier3Invoked = false) := by
  have hlb : liked.isEmpty = false := isEmpty_false_of_ne_nil hl
  have hiff2 : pipeTier2Cond o catalog liked disliked excludedTags rawGenres sessGenres
      sessRyf userId topN = true ↔
      pipeTier1 o catalog liked disliked excludedTags rawGenres sessGenres sessRyf
        userId topN = [] := by
    unfold pipeTier2Cond
    rw [hlb]
    simp [List.isEmpty_iff]
  have hiff3 : pipeTier3Cond o catalog liked disliked excludedTags rawGenres sessGenres
      sessRyf localRyf userId topN = true ↔
      (pipeTier1 o catalog liked disliked excludedTags rawGenres sessGenres sessRyf
          userId topN = [] ∧
       pipeAcc o catalog liked disliked excludedTags rawGenres sessGenres sessRyf
          localRyf userId topN = []) := by
    unfold pipeTier3Cond
    rw [hlb]
    have h2 := pipeAfterT2_empty_iff o catalog liked disliked excludedTags rawGenres
      sessGenres sessRyf localRyf userId topN hl ht
    simpa [List.isEmpty_iff] using h2
  refine ⟨hiff2, hiff3, ?_, ?_⟩
  · intro hlen
    have hlen' : topN ≤ (pipeTier1 o catalog liked disliked excludedTags rawGenres
        sessGenres sessRyf userId topN).length := hlen
    have hne : pipeTier1 o catalog liked disliked excludedTags rawGenres sessGenres
        sessRyf userId topN ≠ [] := by
      intro he
      rw [he] at hlen'
      simp at hlen'
      omega
    constructor
    · show pipeTier2Cond o catalog liked disliked excludedTags rawGenres sessGenres
        sessRyf userId topN = false
      cases hc : pipeTier2Cond o catalog liked disliked excludedTags rawGenres sessGenres
        sessRyf userId topN
      · rfl
      · exact absurd (hiff2.mp hc) hne
    · show pipeTier3Cond o catalog liked disliked excludedTags rawGenres sessGenres
        sessRyf localRyf userId topN = false
      cases hc : pipeTier3Cond o catalog liked disliked excludedTags rawGenres sessGenres
        sessRyf localRyf userId topN
      · rfl
      · exact absurd (hiff3.mp hc).1 hne
  · intro hacc
    show pipeTier3Cond o catalog liked disliked excludedTags rawGenres sessGenres
      sessRyf localRyf userId topN = false
    cases hc : pipeTier3Cond o catalog liked disliked excludedTags rawGenres sessGenres
      sessRyf localRyf userId topN
    · rfl
    · exact absurd (hiff3.mp hc).2 hacc

/-- C9: if the catalog has pairwise-distinct ids, the final recommendation
output never contains two entries with the same id — in every tier: Tier 1
is a subsequence of the (deduplicated) catalog, Tier 2 deduplicates its
accumulation by `app_id` before truncation, and Tier 3 ranks a subsequence
of the catalog. -/
theorem claim_C9_no_duplicate_ids (o : Oracles) (catalog : List Game)
    (liked disliked excludedTags rawGenres sessGenres : List String)
    (sessRyf localRyf : Option YearFilter) (userId : Option Int) (topN : Nat)
    (h : (catalog.map (fun g => g.app_id)).Nodup) :
    (((handle_recommend_games o catalog liked disliked excludedTags rawGenres sessGenres
      sessRyf localRyf userId topN).recs).map (fun g => g.app_id)).Nodup := by
  unfold handle_recommend_games
  dsimp only
  split
  · exact tier3Recs_ids_nodup o catalog liked topN h
  · unfold pipeAfterT2
    have hT1 : ((pipeTier1 o catalog liked disliked excludedTags rawGenres sessGenres
        sessRyf userId topN).map (fun g => g.app_id)).Nodup :=
      List.Nodup.sublist ((pipeTier1_sublist_catalog o catalog liked disliked excludedTags
        rawGenres sessGenres sessRyf userId topN).map (fun g : Game => g.app_id)) h
    split
    · split
      · exact hT1
      · exact List.Nodup.sublist ((List.take_sublist _ _).map (fun g : Game => g.app_id))
          (dedupByAppId_ids_nodup _)
    · exact hT1

/- ## Concrete instances for counterexamples and witnesses -/

def c1CatAlpha : Game := ⟨1, "alpha", ["action"], ["action"], [], none, some 50⟩

def c1CatBeta : Game := ⟨2, "beta", ["action"], ["action"], [], none, some 80⟩

/-- Oracles for the C1 counterexample: no user embedding, a similarity index
with no neighbors (so Tiers 1 and 2 come up empty), and an exact-match title
lookup. -/
def c1Oracles : Oracles :=
  ⟨fun _ => none, fun _ => none, fun _ => none, fun _ _ => some [],
   fun _ _ => 0, fun q ts => if ts.contains q then some (q, 100) else none⟩

/-- C1 (counterexample): with catalog `[alpha, beta]`, liked `["alpha"]`,
disliked `["beta"]` and both earlier tiers empty, the Tier-3 genre fallback
— which draws from the UNFILTERED catalog minus only the liked ids — returns
exactly the disliked game "beta", so a disliked entry appears in the final
output. -/
theorem claim_C1_counterexample :
    ((handle_recommend_games c1Oracles [c1CatAlpha, c1CatBeta] ["alpha"] ["beta"] [] []
      [] none none none 5).recs).map (fun g => g.title) = ["beta"] ∧
    "beta" ∈ (["beta"] : List String) := by
  constructor
  · decide
  · decide

/-- Oracles for the C1 witness: the index returns the surviving catalog id,
so the Tier-1 content fallback succeeds and Tier 3 is never reached. -/
def c1wOracles : Oracles :=
  ⟨fun _ => none, fun _ => none, fun _ => none, fun _ _ => some [1],
   fun _ _ => 0, fun _ _ => none⟩

theorem claim_C1_amended_witness :
    (handle_recommend_games c1wOracles [c1CatAlpha, c1CatBeta] ["alpha"] ["beta"] [] []
      [] none none none 5).tier3Invoked = false ∧
    ∀ g ∈ (handle_recommend_games c1wOracles [c1CatAlpha, c1CatBeta] ["alpha"] ["beta"]
      [] [] [] none none none 5).recs,
      lowerStr g.title ∉ (["beta"] : List String).map (fun d => lowerStr d) ∧
      toString g.app_id ∉ (["beta"] : List String).filter isDigitString ∧
      ∀ tag ∈ ([] : List String), colHit g.tags tag = false ∧
        colHit g.themes tag = false :=
  ⟨by decide, claim_C1_amended c1wOracles [c1CatAlpha, c1CatBeta] ["alpha"] ["beta"] []
    [] [] none none none 5 (by decide)⟩

def c2GameA : Game := ⟨1, "Alpha", [], [], [], none, none⟩

def c2GameB : Game := ⟨2, "Beta", [], [], [], none, none⟩

/-- Oracles for C2: three item vectors with similarity scores 10, 9, 1 and an
identity index-to-id encoder. -/
def c2Oracles : Oracles :=
  ⟨fun _ => none, fun _ => some [10, 9, 1], fun i => some i, fun _ _ => some [],
   fun _ _ => 0, fun _ _ => none⟩

/-- C2 (counterexample): the candidate set has 2 ≥ top_n = 2 members (ids 1
and 2), but the code selects the global top-2 item indices (0 and 1, scores
10 and 9), maps them to ids 0 and 1, and intersects with the candidates —
returning a single entry, not exactly top_n. -/
theorem claim_C2_counterexample :
    2 ≤ ([c2GameA, c2GameB] : List Game).length ∧
    (collaborative_filtering c2Oracles [] [c2GameA, c2GameB] 2).length ≠ 2 := by
  constructor
  · decide
  · decide

theorem claim_C2_amended_witness :
    c2Oracles.cosineScores [] = some [10, 9, 1] ∧
    ((collaborative_filtering c2Oracles [] [c2GameA, c2GameB] 2).Sublist
        [c2GameA, c2GameB] ∧
     (∀ g ∈ collaborative_filtering c2Oracles [] [c2GameA, c2GameB] 2,
       ∃ i ∈ topIndices [10, 9, 1] 2, c2Oracles.gameEncoderInv i = some g.app_id) ∧
     (∀ i ∈ topIndices [10, 9, 1] 2, ∀ j, j < ([10, 9, 1] : List ℚ).length →
       j ∉ topIndices [10, 9, 1] 2 →
         ([10, 9, 1] : List ℚ).getD j 0 ≤ ([10, 9, 1] : List ℚ).getD i 0) ∧
     (0 < 2 → (topIndices [10, 9, 1] 2).length = min 2 ([10, 9, 1] : List ℚ).length)) :=
  ⟨rfl, claim_C2_amended c2Oracles [] [10, 9, 1] [c2GameA, c2GameB] 2 rfl⟩

def c3HorrorA : Game := ⟨1, "Horror Game A", ["horror"], ["horror"], [], none, none⟩

def c3Soma : Game := ⟨7, "Input Game SOMA", ["horror"], ["horror"], [], none, none⟩

/-- Oracles for C3: the index returns the input game's own id among the
neighbors. -/
def c3Oracles : Oracles :=
  ⟨fun _ => none, fun _ => none, fun _ => none, fun _ _ => some [1, 7],
   fun _ _ => 0, fun _ _ => none⟩

/-- C3 (code divergence, evaluated at the failing input): for the
plain-string query "Input Game SOMA" — exactly how Tier 2 calls the
retriever, and exactly the repository's own
`test_get_advanced_similar_games_happy_path` scenario — the entry whose
lowercased title equals the query is RETURNED, because the input-title
exclusion of step 6 is guarded by `isinstance(user_query, list)` and is
skipped for string queries. -/
theorem claim_C3_input_title_returned :
    "Input Game SOMA" ∈ (get_advanced_similar_games c3Oracles
      (Sum.inl "Input Game SOMA") [c3HorrorA, c3Soma] [] none 5 95 5).map
        (fun g => g.title) := by decide

def c4GameA : Game := ⟨1, "alpha", [], [], [], none, none⟩

def c4GameB : Game := ⟨2, "beta", [], [], [], none, none⟩

def c4GameC : Game := ⟨3, "gamma", [], [], [], none, none⟩

/-- Oracles for C4: no collaborative model, but a similarity index returning
ids 2 and 3 for every query. -/
def c4Oracles : Oracles :=
  ⟨fun _ => none, fun _ => none, fun _ => none, fun _ _ => some [2, 3],
   fun _ _ => 0, fun _ _ => none⟩

/-- C4 (counterexample): the Tier-1 stage yields 2 < top_n = 5 results (the
collaborative scorer itself yields 0, its internal joined-query content
fallback 2), yet the per-liked-title Tier 2 is NOT invoked — refuting
"invokes Tier 2 exactly when Tier 1 yields fewer than top_n results". -/
theorem claim_C4_counterexample :
    (handle_recommend_games c4Oracles [c4GameA, c4GameB, c4GameC] ["alpha"] [] [] [] []
      none none none 5).tier1.length < 5 ∧
    (handle_recommend_games c4Oracles [c4GameA, c4GameB, c4GameC] ["alpha"] [] [] [] []
      none none none 5).tier2Invoked = false := by
  constructor
  · decide
  · decide

theorem claim_C4_amended_witness :
    (["alpha"] : List String) ≠ [] ∧ 0 < 5 ∧
    (((handle_recommend_games c4Oracles [c4GameA, c4GameB, c4GameC] ["alpha"] [] [] []
        [] none none none 5).tier2Invoked = true ↔
      (handle_recommend_games c4Oracles [c4GameA, c4GameB, c4GameC] ["alpha"] [] [] []
        [] none none none 5).tier1 = []) ∧
     ((handle_recommend_games c4Oracles [c4GameA, c4GameB, c4GameC] ["alpha"] [] [] []
        [] none none none 5).tier3Invoked = true ↔
      ((handle_recommend_games c4Oracles [c4GameA, c4GameB, c4GameC] ["alpha"] [] [] []
         [] none none none 5).tier1 = [] ∧
       (handle_recommend_games c4Oracles [c4GameA, c4GameB, c4GameC] ["alpha"] [] [] []
         [] none none none 5).tier2Acc = [])) ∧
     (5 ≤ (handle_recommend_games c4Oracles [c4GameA, c4GameB, c4GameC] ["alpha"] [] []
        [] [] none none none 5).tier1.length →
      (handle_recommend_games c4Oracles [c4GameA, c4GameB, c4GameC] ["alpha"] [] [] []
        [] none none none 5).tier2Invoked = false ∧
      (handle_recommend_games c4Oracles [c4GameA, c4GameB, c4GameC] ["alpha"] [] [] []
        [] none none none 5).tier3Invoked = false) ∧
     ((handle_recommend_games c4Oracles [c4GameA, c4GameB, c4GameC] ["alpha"] [] [] []
        [] none none none 5).tier2Acc ≠ [] →
      (handle_recommend_games c4Oracles [c4GameA, c4GameB, c4GameC] ["alpha"] [] [] []
        [] none none none 5).tier3Invoked = false)) :=
  ⟨by decide, by decide,
   claim_C4_amended c4Oracles [c4GameA, c4GameB, c4GameC] ["alpha"] [] [] [] [] none
     none none 5 (by decide) (by decide)⟩

def c5AlphaOne : Game := ⟨1, "Alpha One", [], [], [], none, none⟩

def c5AlphaTwo : Game := ⟨2, "Alpha Two", [], [], [], none, none⟩

/-- Oracles for C5: the index ranks id 2 before id 1, and any two distinct
titles are fuzzy-similar at ratio 96 ≥ threshold 95. -/
def c5Oracles : Oracles :=
  ⟨fun _ => none, fun _ => none, fun _ => none, fun _ _ => some [2, 1],
   fun a b => if a == b then 100 else 96, fun _ _ => none⟩

/-- C5 (counterexample): with the index returning ranks [2, 1] and `k = 1`,
the source keeps "Alpha One" — the first survivor in CATALOG row order —
while a walk in retrieval-rank order (the spec's step 7, modelled by
`retrieverSpecRankWalk`) would keep "Alpha Two". The outputs differ, so the
walk is not in retrieval-rank order. -/
theorem claim_C5_counterexample :
    get_advanced_similar_games c5Oracles (Sum.inl "q") [c5AlphaOne, c5AlphaTwo] [] none
      1 95 5 = [c5AlphaOne] ∧
    retrieverSpecRankWalk c5Oracles (Sum.inl "q") [c5AlphaOne, c5AlphaTwo] [] none
      1 95 5 = [c5AlphaTwo] ∧
    ([c5AlphaOne] : List Game) ≠ [c5AlphaTwo] := by
  refine ⟨?_, ?_, ?_⟩
  · decide
  · decide
  · decide

/-- Oracles for the C6 witness: every external call fails. -/
def c6Oracles : Oracles :=
  ⟨fun _ => none, fun _ => none, fun _ => none, fun _ _ => none,
   fun _ _ => 0, fun _ _ => none⟩

theorem claim_C6_error_absorption_witness :
    c6Oracles.userEnc 1 = none ∧
    c6Oracles.cosineScores [] = none ∧
    c6Oracles.vs (queryText (Sum.inl "x")) (5 * 5) = none ∧
    c6Oracles.vs "a" (3 * 5) = none ∧
    (get_user_embedding c6Oracles 1 = none ∧
     collaborative_filtering c6Oracles [] [] 5 = [] ∧
     get_advanced_similar_games c6Oracles (Sum.inl "x") [] [] none 5 95 5 = [] ∧
     tier2Accumulate c6Oracles [] [] none ["a", "b"] =
       tier2Accumulate c6Oracles [] [] none
         ((["a", "b"] : List String).filter (fun s => !(s == "a")))) :=
  ⟨rfl, rfl, rfl, rfl,
   claim_C6_error_absorption c6Oracles 1 [] [] [] [] [] none none (Sum.inl "x") 5 95 5 5
     ["a", "b"] "a" rfl rfl rfl rfl⟩

def c8OldGame : Game := ⟨1, "Old Game", [], [], [], some 1999, none⟩

def c8NewGame : Game := ⟨2, "New Game", [], [], [], some 2020, none⟩

def c8NoDate : Game := ⟨3, "Undated Game", [], [], [], none, none⟩

/-- Oracles for the C8 witness: the index returns all three catalog ids. -/
def c8Oracles : Oracles :=
  ⟨fun _ => none, fun _ => none, fun _ => none, fun _ _ => some [1, 2, 3],
   fun _ _ => 0, fun _ _ => none⟩

theorem claim_C8_release_year_filter_witness :
    ("after" = "after" ∨ "after" = "before" ∨ "after" = "exact") ∧
    ∀ g ∈ get_advanced_similar_games c8Oracles (Sum.inl "q")
        [c8OldGame, c8NewGame, c8NoDate] [] (some ⟨"after", 2000⟩) 5 95 5,
      ∃ yr, g.date_release = some yr ∧
        ("after" = "after" → (2000 : Int) < yr) ∧
        ("after" = "before" → yr < (2000 : Int)) ∧
        ("after" = "exact" → yr = (2000 : Int)) :=
  ⟨Or.inl rfl,
   claim_C8_release_year_filter c8Oracles (Sum.inl "q")
     [c8OldGame, c8NewGame, c8NoDate] [] "after" 2000 5 95 5 (Or.inl rfl)⟩

theorem claim_C9_no_duplicate_ids_witness :
    ((([c4GameA, c4GameB, c4GameC] : List Game).map (fun g => g.app_id)).Nodup) ∧
    (((handle_recommend_games c4Oracles [c4GameA, c4GameB, c4GameC] ["alpha"] [] [] []
      [] none none none 5).recs).map (fun g => g.app_id)).Nodup :=
  ⟨by decide,
   claim_C9_no_duplicate_ids c4Oracles [c4GameA, c4GameB, c4GameC] ["alpha"] [] [] []
     [] none none none 5 (by decide)⟩

def c10Session : UserSession := ⟨{"g1"}, {"g2"}, {"horror", "zombie"}⟩

theorem claim_C10_session_monotone_witness :
    ({"horror"} : Finset String) ⊆ c10Session.excluded_tags ∧
    (c10Session.liked_games ⊆ (c10Session.update_likes {"l"}).liked_games ∧
     (c10Session.update_likes {"l"}).liked_games = c10Session.liked_games ∪ {"l"} ∧
     c10Session.disliked_games ⊆ (c10Session.update_dislikes {"d"}).disliked_games ∧
     (c10Session.update_dislikes {"d"}).disliked_games =
       c10Session.disliked_games ∪ {"d"} ∧
     c10Session.excluded_tags ⊆ (c10Session.set_excluded_tags {"horror"}).excluded_tags ∧
     (c10Session.set_excluded_tags {"horror"}).excluded_tags =
       c10Session.excluded_tags ∪ {"horror"} ∧
     c10Session.set_excluded_tags {"horror"} = c10Session) :=
  ⟨by decide,
   claim_C10_session_monotone c10Session {"l"} {"d"} {"horror"} (by decide)⟩
